import Mathlib

/-!
Verification of the AIUB grading-system core logic.

The repository ships the same business logic twice: a browser
implementation in frame/script.js and a reference backend in
source/GradeCalculator.java.  Both are embedded below over the
rationals (JavaScript numbers and Java doubles are modelled as
exact arithmetic; every constant appearing in the programs is a
small decimal, and all comparisons in the code are between such
constants and the inputs).

Top-level definitions mirror script.js; the namespace
GradeCalculator mirrors GradeCalculator.java.
-/

/-- Result record of a grade lookup: the letter grade and the grade
point, as produced by marksToGrade in script.js and by the GradeInfo
holder class in GradeCalculator.java. -/
structure GradeInfo where
  grade : String
  point : ℚ
deriving DecidableEq, Repr

/-- One band of the grading scale as in the GRADING_SCALE array of
script.js: an inclusive marks range with its letter grade and point. -/
structure GradeBand where
  min : ℚ
  max : ℚ
  grade : String
  point : ℚ
deriving DecidableEq, Repr

/-- The AIUB grading scale, transcribed from the GRADING_SCALE constant
of script.js (same order, highest band first). -/
def GRADING_SCALE : List GradeBand :=
  [⟨90, 100, "A+", 4.0⟩,
   ⟨85, 89, "A", 3.75⟩,
   ⟨80, 84, "B+", 3.5⟩,
   ⟨75, 79, "B", 3.25⟩,
   ⟨70, 74, "C+", 3.0⟩,
   ⟨65, 69, "C", 2.75⟩,
   ⟨60, 64, "D+", 2.5⟩,
   ⟨50, 59, "D", 2.25⟩,
   ⟨0, 49, "F", 0.0⟩]

/-- marksToGrade from script.js.  Out-of-range marks yield the Invalid
sentinel; otherwise the for-of loop returns the first band whose
inclusive range contains the marks (List.find? over the scale), and the
return after the loop is the defensive F fallback. -/
def marksToGrade (marks : ℚ) : GradeInfo :=
  if marks < 0 ∨ marks > 100 then ⟨"Invalid", 0.0⟩
  else
    match GRADING_SCALE.find? (fun scale => decide (marks ≥ scale.min) && decide (marks ≤ scale.max)) with
    | some scale => ⟨scale.grade, scale.point⟩
    | none => ⟨"F", 0.0⟩

/-- A course as assembled by getAllCourses in script.js: title, credit
hours and marks.  Credits are parsed with parseFloat, hence rational. -/
structure Course where
  title : String
  credits : ℚ
  marks : ℚ
deriving DecidableEq, Repr

/-- calculateSemesterGPA from script.js: empty list gives 0.0, otherwise
a single forEach accumulates totalPoints and totalCredits and the result
is their quotient when totalCredits is positive, else 0.0. -/
def calculateSemesterGPA (courses : List Course) : ℚ :=
  if courses.length = 0 then 0.0
  else
    let totalPoints :=
      courses.foldl (fun acc course => acc + (marksToGrade course.marks).point * course.credits) 0.0
    let totalCredits := courses.foldl (fun acc course => acc + course.credits) 0
    if totalCredits > 0 then totalPoints / totalCredits else 0.0

/-- calculateCumulativeCGPA from script.js.  No argument validation is
performed; the credit-weighted blend is returned whenever the credit sum
is positive, else 0.0. -/
def calculateCumulativeCGPA (prevCGPA prevCredits currentGPA currentCredits : ℚ) : ℚ :=
  let totalPoints := prevCGPA * prevCredits + currentGPA * currentCredits
  let totalCredits := prevCredits + currentCredits
  if totalCredits > 0 then totalPoints / totalCredits else 0.0

/-- Status record returned by getAcademicStatus in script.js; the source
field named class (a reserved word here) is rendered as statusClass.
The text strings are transcribed codepoint for codepoint from the file,
including the decorative suffixes after the label proper. -/
structure StatusInfo where
  text : String
  statusClass : String
deriving DecidableEq, Repr

/-- getAcademicStatus from script.js: an if-else-if chain over the CGPA
thresholds, with no range validation before it. -/
def getAcademicStatus (cgpa : ℚ) : StatusInfo :=
  if cgpa ≥ 3.75 then ⟨"Dean\x27s List üèÜ", "status-excellent"⟩
  else if cgpa ≥ 3.5 then ⟨"Excellent Standing ‚≠ê", "status-excellent"⟩
  else if cgpa ≥ 3.0 then ⟨"Good Standing ‚úì", "status-good"⟩
  else if cgpa ≥ 2.5 then ⟨"Satisfactory", "status-good"⟩
  else if cgpa ≥ 2.0 then ⟨"Warning ‚ö†Ô∏è", "status-warning"⟩
  else ⟨"Academic Probation ‚ö†Ô∏è", "status-probation"⟩

namespace GradeCalculator

/-- The GRADE_SCALE TreeMap of GradeCalculator.java, rendered as its
entry list in descending key order, so that a floorEntry query (greatest
key at most the argument) is the first entry of this list whose key is
at most the argument. -/
def GRADE_SCALE : List (Int × GradeInfo) :=
  [(90, ⟨"A+", 4.0⟩),
   (85, ⟨"A", 3.75⟩),
   (80, ⟨"B+", 3.5⟩),
   (75, ⟨"B", 3.25⟩),
   (70, ⟨"C+", 3.0⟩),
   (65, ⟨"C", 2.75⟩),
   (60, ⟨"D+", 2.5⟩),
   (50, ⟨"D", 2.25⟩),
   (0, ⟨"F", 0.0⟩)]

/-- marksToGrade from GradeCalculator.java.  Out-of-range marks throw an
IllegalArgumentException (modelled as Except.error with the message);
otherwise the marks are cast to int (truncation toward zero, which on
the nonnegative range reached here is the floor) and looked up with
floorEntry, with a defensive F fallback for a missing entry. -/
def marksToGrade (marks : ℚ) : Except String GradeInfo :=
  if marks < 0 ∨ marks > 100 then .error ("Marks must be between 0 and 100")
  else
    match GRADE_SCALE.find? (fun entry => decide (entry.1 ≤ ⌊marks⌋)) with
    | some entry => .ok entry.2
    | none => .ok ⟨"F", 0.0⟩

/-- calculateCumulativeCGPA from GradeCalculator.java: negative credits
throw, a previous CGPA outside 0.0 to 4.0 throws, and otherwise the
credit-weighted blend is returned when the credit sum is positive,
else 0.0.  Credits are Java ints. -/
def calculateCumulativeCGPA (previousCGPA : ℚ) (previousCredits : Int)
    (currentGPA : ℚ) (currentCredits : Int) : Except String ℚ :=
  if previousCredits < 0 ∨ currentCredits < 0 then
    .error ("Credits cannot be negative")
  else if previousCGPA < 0.0 ∨ previousCGPA > 4.0 then
    .error ("CGPA must be between 0.0 and 4.0")
  else
    let totalPoints := previousCGPA * (previousCredits : ℚ) + currentGPA * (currentCredits : ℚ)
    let totalCredits := previousCredits + currentCredits
    .ok (if totalCredits > 0 then totalPoints / (totalCredits : ℚ) else 0.0)

/-- getAcademicStatus from GradeCalculator.java: a CGPA outside 0.0 to
4.0 yields the sentinel string, otherwise the same threshold chain as
the browser implementation, with plain labels. -/
def getAcademicStatus (cgpa : ℚ) : String :=
  if cgpa < 0.0 ∨ cgpa > 4.0 then "Invalid CGPA"
  else if cgpa ≥ 3.75 then "Dean\x27s List"
  else if cgpa ≥ 3.5 then "Excellent Standing"
  else if cgpa ≥ 3.0 then "Good Standing"
  else if cgpa ≥ 2.5 then "Satisfactory"
  else if cgpa ≥ 2.0 then "Warning"
  else "Academic Probation"

end GradeCalculator

/-- Sum of grade points weighted by credits over a course list, the
mathematical form of the totalPoints accumulator of
calculateSemesterGPA. -/
def sumPoints (courses : List Course) : ℚ :=
  (courses.map (fun course => (marksToGrade course.marks).point * course.credits)).sum

/-- Sum of the credits over a course list, the mathematical form of the
totalCredits accumulator of calculateSemesterGPA. -/
def sumCredits (courses : List Course) : ℚ :=
  (courses.map (fun course => course.credits)).sum

/-- Folding an accumulating addition equals the initial value plus the
sum of the mapped list. -/
lemma foldl_add_eq (f : Course → ℚ) (l : List Course) (a : ℚ) :
    l.foldl (fun acc c => acc + f c) a = a + (l.map f).sum := by
  induction l generalizing a with
  | nil => simp
  | cons c t ih => simp only [List.foldl_cons, List.map_cons, List.sum_cons, ih]; ring

/-- Closed form of calculateSemesterGPA in terms of the two sums. -/
lemma calculateSemesterGPA_eq (courses : List Course) :
    calculateSemesterGPA courses =
      if courses = [] then 0
      else if sumCredits courses > 0 then sumPoints courses / sumCredits courses else 0 := by
  rcases courses with _ | ⟨c, t⟩
  · norm_num [calculateSemesterGPA]
  · have h1 : (c :: t).length ≠ 0 := by simp
    have h3 : (c :: t : List Course) ≠ [] := List.cons_ne_nil c t
    rw [if_neg h3]
    simp only [calculateSemesterGPA, if_neg h1, foldl_add_eq, zero_add, sumPoints, sumCredits,
      List.map_cons, List.sum_cons]
    norm_num

/-- Every band of the grading scale carries a point between 0 and 4. -/
lemma gradeBand_point_bounds : ∀ b ∈ GRADING_SCALE, 0 ≤ b.point ∧ b.point ≤ 4 := by
  intro b hb
  fin_cases hb <;> norm_num

/-- The point of any grade lookup result, including the Invalid sentinel
and the defensive fallback, lies between 0 and 4. -/
lemma marksToGrade_point_bounds (marks : ℚ) :
    0 ≤ (marksToGrade marks).point ∧ (marksToGrade marks).point ≤ 4 := by
  unfold marksToGrade
  split
  · norm_num
  · rcases hfind : GRADING_SCALE.find?
        (fun scale => decide (marks ≥ scale.min) && decide (marks ≤ scale.max)) with _ | scale
    · rw [hfind]; norm_num
    · rw [hfind]
      exact gradeBand_point_bounds scale (List.mem_of_find?_eq_some hfind)

/-- The weighted point sum is nonnegative when all credits are. -/
lemma sumPoints_nonneg : ∀ l : List Course, (∀ c ∈ l, 0 ≤ c.credits) → 0 ≤ sumPoints l := by
  intro l
  induction l with
  | nil => intro _; simp [sumPoints]
  | cons c t ih =>
    intro h
    have h1 := (marksToGrade_point_bounds c.marks).1
    have h2 := h c (List.mem_cons_self c t)
    have h3 := ih (fun x hx => h x (List.mem_cons_of_mem c hx))
    simp only [sumPoints, List.map_cons, List.sum_cons] at h3 ⊢
    exact add_nonneg (mul_nonneg h1 h2) h3

/-- The weighted point sum is at most four times the credit sum when all
credits are nonnegative. -/
lemma sumPoints_le_four : ∀ l : List Course, (∀ c ∈ l, 0 ≤ c.credits) →
    sumPoints l ≤ 4 * sumCredits l := by
  intro l
  induction l with
  | nil => intro _; simp [sumPoints, sumCredits]
  | cons c t ih =>
    intro h
    have h1 := (marksToGrade_point_bounds c.marks).2
    have h2 := h c (List.mem_cons_self c t)
    have h3 := ih (fun x hx => h x (List.mem_cons_of_mem c hx))
    simp only [sumPoints, sumCredits, List.map_cons, List.sum_cons] at h3 ⊢
    have h4 : (marksToGrade c.marks).point * c.credits ≤ 4 * c.credits :=
      mul_le_mul_of_nonneg_right h1 h2
    linarith

/-- The credit sum is nonnegative when all credits are. -/
lemma sumCredits_nonneg : ∀ l : List Course, (∀ c ∈ l, 0 ≤ c.credits) → 0 ≤ sumCredits l := by
  intro l
  induction l with
  | nil => intro _; simp [sumCredits]
  | cons c t ih =>
    intro h
    have h2 := h c (List.mem_cons_self c t)
    have h3 := ih (fun x hx => h x (List.mem_cons_of_mem c hx))
    simp only [sumCredits, List.map_cons, List.sum_cons] at h3 ⊢
    linarith

/-- The credit sum of a nonempty list of positive-credit courses is
positive. -/
lemma sumCredits_pos (l : List Course) (hne : l ≠ []) (h : ∀ c ∈ l, 0 < c.credits) :
    0 < sumCredits l := by
  rcases l with _ | ⟨c, t⟩
  · exact absurd rfl hne
  · have h2 := h c (List.mem_cons_self c t)
    have h3 := sumCredits_nonneg t (fun x hx => le_of_lt (h x (List.mem_cons_of_mem c hx)))
    simp only [sumCredits, List.map_cons, List.sum_cons] at h3 ⊢
    linarith

/-- C1: for every marks value in the boundary set 0, 49, 50, 59, 60, 64,
65, 69, 70, 74, 75, 79, 80, 84, 85, 89, 90, 100, the grade lookup of
both implementations returns exactly the letter and point of the fixed
band table, with both endpoints of each band included. -/
theorem C1_grade_table_boundaries :
    (marksToGrade 0 = ⟨"F", 0.0⟩ ∧ GradeCalculator.marksToGrade 0 = .ok ⟨"F", 0.0⟩) ∧
    (marksToGrade 49 = ⟨"F", 0.0⟩ ∧ GradeCalculator.marksToGrade 49 = .ok ⟨"F", 0.0⟩) ∧
    (marksToGrade 50 = ⟨"D", 2.25⟩ ∧ GradeCalculator.marksToGrade 50 = .ok ⟨"D", 2.25⟩) ∧
    (marksToGrade 59 = ⟨"D", 2.25⟩ ∧ GradeCalculator.marksToGrade 59 = .ok ⟨"D", 2.25⟩) ∧
    (marksToGrade 60 = ⟨"D+", 2.5⟩ ∧ GradeCalculator.marksToGrade 60 = .ok ⟨"D+", 2.5⟩) ∧
    (marksToGrade 64 = ⟨"D+", 2.5⟩ ∧ GradeCalculator.marksToGrade 64 = .ok ⟨"D+", 2.5⟩) ∧
    (marksToGrade 65 = ⟨"C", 2.75⟩ ∧ GradeCalculator.marksToGrade 65 = .ok ⟨"C", 2.75⟩) ∧
    (marksToGrade 69 = ⟨"C", 2.75⟩ ∧ GradeCalculator.marksToGrade 69 = .ok ⟨"C", 2.75⟩) ∧
    (marksToGrade 70 = ⟨"C+", 3.0⟩ ∧ GradeCalculator.marksToGrade 70 = .ok ⟨"C+", 3.0⟩) ∧
    (marksToGrade 74 = ⟨"C+", 3.0⟩ ∧ GradeCalculator.marksToGrade 74 = .ok ⟨"C+", 3.0⟩) ∧
    (marksToGrade 75 = ⟨"B", 3.25⟩ ∧ GradeCalculator.marksToGrade 75 = .ok ⟨"B", 3.25⟩) ∧
    (marksToGrade 79 = ⟨"B", 3.25⟩ ∧ GradeCalculator.marksToGrade 79 = .ok ⟨"B", 3.25⟩) ∧
    (marksToGrade 80 = ⟨"B+", 3.5⟩ ∧ GradeCalculator.marksToGrade 80 = .ok ⟨"B+", 3.5⟩) ∧
    (marksToGrade 84 = ⟨"B+", 3.5⟩ ∧ GradeCalculator.marksToGrade 84 = .ok ⟨"B+", 3.5⟩) ∧
    (marksToGrade 85 = ⟨"A", 3.75⟩ ∧ GradeCalculator.marksToGrade 85 = .ok ⟨"A", 3.75⟩) ∧
    (marksToGrade 89 = ⟨"A", 3.75⟩ ∧ GradeCalculator.marksToGrade 89 = .ok ⟨"A", 3.75⟩) ∧
    (marksToGrade 90 = ⟨"A+", 4.0⟩ ∧ GradeCalculator.marksToGrade 90 = .ok ⟨"A+", 4.0⟩) ∧
    (marksToGrade 100 = ⟨"A+", 4.0⟩ ∧ GradeCalculator.marksToGrade 100 = .ok ⟨"A+", 4.0⟩) := by
  repeat' apply And.intro
  all_goals norm_num [marksToGrade, GradeCalculator.marksToGrade, GRADING_SCALE,
    GradeCalculator.GRADE_SCALE, List.find?]

/-- C2: the bands do not cover the whole of the real interval 0 to 100.
At marks 89.5 the browser band scan matches no band and the defensive
fallback after the loop returns F with 0.0 points, while the Java
reference floors the marks to 89 and returns A with 3.75 points. -/
theorem C2_fallback_reached_at_89_5 :
    marksToGrade 89.5 = ⟨"F", 0.0⟩ ∧
    GRADING_SCALE.find?
      (fun scale => decide ((89.5 : ℚ) ≥ scale.min) && decide ((89.5 : ℚ) ≤ scale.max)) = none ∧
    GradeCalculator.marksToGrade 89.5 = .ok ⟨"A", 3.75⟩ := by
  refine ⟨?_, ?_, ?_⟩ <;>
    norm_num [marksToGrade, GradeCalculator.marksToGrade, GRADING_SCALE,
      GradeCalculator.GRADE_SCALE, List.find?]

/-- C3: calculateSemesterGPA returns 0.0 on the empty course list, and
otherwise the credit-weighted sum of looked-up grade points divided by
the credit sum when that sum is positive, else 0.0. -/
theorem C3_semesterGPA_contract (courses : List Course) :
    calculateSemesterGPA courses =
      if courses = [] then 0
      else if sumCredits courses > 0 then sumPoints courses / sumCredits courses else 0 :=
  calculateSemesterGPA_eq courses

/-- C4 counterexample: the blend of 3.45 over 36 credits with 3.875 over
12 credits is exactly 3.55625, which differs from 3.5563 by 0.00005 and
so is not within 1e-6 of it. -/
theorem C4_tolerance_counterexample :
    calculateCumulativeCGPA 3.45 36 3.875 12 = 569 / 160 ∧
    ¬ |calculateCumulativeCGPA 3.45 36 3.875 12 - 3.5563| ≤ 1 / 1000000 := by
  norm_num [calculateCumulativeCGPA, abs_le]

/-- C4 amended: calculateCumulativeCGPA returns the credit-weighted
blend when the credit sum is positive and 0.0 otherwise; the blend of
3.45 over 36 credits with 3.875 over 12 credits is within 5e-5 of
3.5563 (it equals 3.55625 exactly). -/
theorem C4_cumulative_formula (prevCGPA prevCredits currentGPA currentCredits : ℚ) :
    (prevCredits + currentCredits > 0 →
      calculateCumulativeCGPA prevCGPA prevCredits currentGPA currentCredits =
        (prevCGPA * prevCredits + currentGPA * currentCredits) /
          (prevCredits + currentCredits)) ∧
    (¬ prevCredits + currentCredits > 0 →
      calculateCumulativeCGPA prevCGPA prevCredits currentGPA currentCredits = 0) ∧
    |calculateCumulativeCGPA 3.45 36 3.875 12 - 3.5563| ≤ 5 / 100000 := by
  refine ⟨fun h => ?_, fun h => ?_, ?_⟩
  · simp only [calculateCumulativeCGPA, if_pos h]
  · simp only [calculateCumulativeCGPA, if_neg h]
    norm_num
  · norm_num [calculateCumulativeCGPA, abs_le]

/-- Witness for C4: the formula branch evaluated at the concrete
regression input. -/
theorem C4_cumulative_formula_witness :
    calculateCumulativeCGPA 3.45 36 3.875 12 = (3.45 * 36 + 3.875 * 12) / (36 + 12) :=
  (C4_cumulative_formula 3.45 36 3.875 12).1 (by norm_num)

/-- C5 counterexample: the browser calculateCumulativeCGPA performs no
validation, so with a negative previous-credits argument it still
returns the blended value instead of signalling anything. -/
theorem C5_js_returns_blend_for_negative_credits :
    calculateCumulativeCGPA 1 (-1) 1 5 = (1 * (-1) + 1 * 5) / ((-1) + 5) := by
  norm_num [calculateCumulativeCGPA]

/-- C5 amended: only the Java reference validates; it throws an
IllegalArgumentException whenever a credits argument is negative or the
previous CGPA lies outside 0.0 to 4.0. -/
theorem C5_java_rejects_invalid_args (previousCGPA : ℚ) (previousCredits : Int)
    (currentGPA : ℚ) (currentCredits : Int)
    (h : previousCredits < 0 ∨ currentCredits < 0 ∨ previousCGPA < 0 ∨ previousCGPA > 4) :
    ∃ msg, GradeCalculator.calculateCumulativeCGPA previousCGPA previousCredits
      currentGPA currentCredits = .error msg := by
  unfold GradeCalculator.calculateCumulativeCGPA
  split_ifs with h1 h2
  · exact ⟨_, rfl⟩
  · exact ⟨_, rfl⟩
  · exfalso
    push_neg at h1 h2
    obtain ⟨h1a, h1b⟩ := h1
    obtain ⟨h2a, h2b⟩ := h2
    norm_num at h2a h2b
    rcases h with h | h | h | h
    · exact absurd h (not_lt.mpr h1a)
    · exact absurd h (not_lt.mpr h1b)
    · exact absurd h (not_lt.mpr h2a)
    · exact absurd h (not_lt.mpr h2b)

/-- Witness for C5: the Java implementation rejects a negative
previous-credits argument. -/
theorem C5_java_rejects_witness :
    ∃ msg, GradeCalculator.calculateCumulativeCGPA 1 (-1) 1 5 = .error msg :=
  C5_java_rejects_invalid_args 1 (-1) 1 5 (Or.inl (by norm_num))

/-- C6: on the valid range 0 to 4 the status classifier picks exactly
one label by the first matching band, evaluated high to low. -/
theorem C6_status_bands (cgpa : ℚ) (h0 : 0 ≤ cgpa) (h4 : cgpa ≤ 4) :
    (cgpa ≥ 3.75 → GradeCalculator.getAcademicStatus cgpa = "Dean\x27s List") ∧
    (3.5 ≤ cgpa ∧ cgpa < 3.75 →
      GradeCalculator.getAcademicStatus cgpa = "Excellent Standing") ∧
    (3.0 ≤ cgpa ∧ cgpa < 3.5 →
      GradeCalculator.getAcademicStatus cgpa = "Good Standing") ∧
    (2.5 ≤ cgpa ∧ cgpa < 3.0 →
      GradeCalculator.getAcademicStatus cgpa = "Satisfactory") ∧
    (2.0 ≤ cgpa ∧ cgpa < 2.5 →
      GradeCalculator.getAcademicStatus cgpa = "Warning") ∧
    (cgpa < 2.0 →
      GradeCalculator.getAcademicStatus cgpa = "Academic Probation") := by
  have hv : ¬ (cgpa < 0.0 ∨ cgpa > 4.0) := by
    push_neg
    constructor <;> linarith
  refine ⟨fun h => ?_, fun h => ?_, fun h => ?_, fun h => ?_, fun h => ?_, fun h => ?_⟩ <;>
  · simp only [GradeCalculator.getAcademicStatus, if_neg hv]
    split_ifs <;>
      first
        | rfl
        | (exfalso
           first
             | (obtain ⟨ha, hb⟩ := h; linarith)
             | linarith)

/-- Witness for C6: the four boundary probes named by the claim. -/
theorem C6_status_bands_witness :
    GradeCalculator.getAcademicStatus 3.75 = "Dean\x27s List" ∧
    GradeCalculator.getAcademicStatus 3.749999 = "Excellent Standing" ∧
    GradeCalculator.getAcademicStatus 2.0 = "Warning" ∧
    GradeCalculator.getAcademicStatus 1.999999 = "Academic Probation" :=
  ⟨(C6_status_bands 3.75 (by norm_num) (by norm_num)).1 (by norm_num),
   (C6_status_bands 3.749999 (by norm_num) (by norm_num)).2.1 ⟨by norm_num, by norm_num⟩,
   (C6_status_bands 2.0 (by norm_num) (by norm_num)).2.2.2.2.1 ⟨by norm_num, by norm_num⟩,
   (C6_status_bands 1.999999 (by norm_num) (by norm_num)).2.2.2.2.2 (by norm_num)⟩

/-- C7 counterexample: the browser classifier has no range check, so an
out-of-range CGPA of 4.5 produces exactly the same record as the
regular top band (the one produced for 3.75), and -0.5 produces exactly
the probation record (the one produced for 0), not an Invalid
sentinel. -/
theorem C7_js_no_sentinel_counterexample :
    getAcademicStatus 4.5 = getAcademicStatus 3.75 ∧
    (getAcademicStatus 4.5).statusClass = "status-excellent" ∧
    getAcademicStatus (-0.5) = getAcademicStatus 0 ∧
    (getAcademicStatus (-0.5)).statusClass = "status-probation" := by
  refine ⟨?_, ?_, ?_, ?_⟩ <;> norm_num [getAcademicStatus]

/-- C7 amended: only the Java reference returns a distinguishable
Invalid sentinel for a CGPA outside 0.0 to 4.0, distinct from all six
regular standing labels. -/
theorem C7_java_invalid_sentinel (cgpa : ℚ) (h : cgpa < 0 ∨ cgpa > 4) :
    GradeCalculator.getAcademicStatus cgpa = "Invalid CGPA" ∧
    "Invalid CGPA" ∉ ["Dean\x27s List", "Excellent Standing", "Good Standing",
      "Satisfactory", "Warning", "Academic Probation"] := by
  constructor
  · have hv : cgpa < 0.0 ∨ cgpa > 4.0 := by
      rcases h with h | h
      · exact Or.inl (by linarith)
      · exact Or.inr (by linarith)
    unfold GradeCalculator.getAcademicStatus
    rw [if_pos hv]
  · simp

/-- Witness for C7: 4.5 is classified as the Invalid sentinel by the
Java reference. -/
theorem C7_java_invalid_witness :
    GradeCalculator.getAcademicStatus 4.5 = "Invalid CGPA" :=
  (C7_java_invalid_sentinel 4.5 (Or.inr (by norm_num))).1

/-- C8 counterexample: the four-course regression list evaluates to
exactly 31/8 = 3.875, which is not approximately 3.75 (it differs from
it by 0.125). -/
theorem C8_regression_counterexample :
    calculateSemesterGPA
      [⟨"Programming in Java", 3, 88⟩, ⟨"Data Structures", 3, 92⟩,
       ⟨"Database Management", 3, 85⟩, ⟨"Web Technologies", 3, 90⟩] = 31 / 8 ∧
    ¬ |calculateSemesterGPA
        [⟨"Programming in Java", 3, 88⟩, ⟨"Data Structures", 3, 92⟩,
         ⟨"Database Management", 3, 85⟩, ⟨"Web Technologies", 3, 90⟩] - 3.75|
      ≤ 1 / 1000000 := by
  constructor <;>
    norm_num [calculateSemesterGPA, marksToGrade, GRADING_SCALE, List.find?, abs_le]

/-- C8 amended: the four-course regression list (grades A, A+, A, A+
with equal credits) yields a semester GPA of exactly 3.875. -/
theorem C8_regression_exact_value :
    calculateSemesterGPA
      [⟨"Programming in Java", 3, 88⟩, ⟨"Data Structures", 3, 92⟩,
       ⟨"Database Management", 3, 85⟩, ⟨"Web Technologies", 3, 90⟩] = 3.875 := by
  norm_num [calculateSemesterGPA, marksToGrade, GRADING_SCALE, List.find?]

/-- C9: for any course list whose credits are all positive the semester
GPA lies in the closed interval from 0 to 4, because every point the
lookup can return is in that interval and the result is a
credit-weighted average of such points. -/
theorem C9_gpa_bounds (courses : List Course) (h : ∀ c ∈ courses, 0 < c.credits) :
    0 ≤ calculateSemesterGPA courses ∧ calculateSemesterGPA courses ≤ 4 := by
  rw [calculateSemesterGPA_eq]
  rcases eq_or_ne courses [] with rfl | hne
  · norm_num
  · rw [if_neg hne]
    have hw : ∀ c ∈ courses, 0 ≤ c.credits := fun c hc => le_of_lt (h c hc)
    split_ifs with hpos
    · refine ⟨div_nonneg (sumPoints_nonneg courses hw) (le_of_lt hpos), ?_⟩
      rw [div_le_iff₀ hpos]
      exact sumPoints_le_four courses hw
    · norm_num

/-- Witness for C9: a concrete single-course list. -/
theorem C9_gpa_bounds_witness :
    0 ≤ calculateSemesterGPA [⟨"Algorithms", 3, 90⟩] ∧
    calculateSemesterGPA [⟨"Algorithms", 3, 90⟩] ≤ 4 :=
  C9_gpa_bounds [⟨"Algorithms", 3, 90⟩] (by
    intro c hc
    rw [List.mem_singleton] at hc
    subst hc
    norm_num)

/-- C10: the browser lookup maps any out-of-range marks to the Invalid
sentinel carrying 0.0 points without signalling, so such a course
contributes nothing to the point total of calculateSemesterGPA while
its credits still enter the denominator, which can only lower the
GPA. -/
theorem C10_out_of_range_marks_silently_zero (c : Course)
    (hm : c.marks < 0 ∨ c.marks > 100) (hc : 0 < c.credits)
    (cs : List Course) (hne : cs ≠ []) (hcs : ∀ x ∈ cs, 0 < x.credits) :
    marksToGrade c.marks = ⟨"Invalid", 0.0⟩ ∧
    calculateSemesterGPA (cs ++ [c]) = sumPoints cs / (sumCredits cs + c.credits) ∧
    calculateSemesterGPA (cs ++ [c]) ≤ calculateSemesterGPA cs := by
  have hinv : marksToGrade c.marks = ⟨"Invalid", 0.0⟩ := by
    unfold marksToGrade
    rw [if_pos hm]
  have hS : 0 < sumCredits cs := sumCredits_pos cs hne hcs
  have hw : ∀ x ∈ cs, 0 ≤ x.credits := fun x hx => le_of_lt (hcs x hx)
  have hP : 0 ≤ sumPoints cs := sumPoints_nonneg cs hw
  have happ_p : sumPoints (cs ++ [c]) = sumPoints cs := by
    simp only [sumPoints, List.map_append, List.sum_append, List.map_cons, List.map_nil,
      List.sum_cons, List.sum_nil, hinv]
    norm_num
  have happ_c : sumCredits (cs ++ [c]) = sumCredits cs + c.credits := by
    simp [sumCredits]
  have hne2 : cs ++ [c] ≠ [] := by simp
  have hgpa2 : calculateSemesterGPA (cs ++ [c]) = sumPoints cs / (sumCredits cs + c.credits) := by
    rw [calculateSemesterGPA_eq, if_neg hne2, happ_p, happ_c,
      if_pos (show sumCredits cs + c.credits > 0 by linarith)]
  have hgpa1 : calculateSemesterGPA cs = sumPoints cs / sumCredits cs := by
    rw [calculateSemesterGPA_eq, if_neg hne, if_pos hS]
  refine ⟨hinv, hgpa2, ?_⟩
  rw [hgpa2, hgpa1, div_le_div_iff₀ (by linarith) hS]
  nlinarith [mul_nonneg hP (le_of_lt hc)]

/-- Witness for C10: a 90-marks course followed by a course whose marks
exceed 100. -/
theorem C10_witness :
    marksToGrade (120 : ℚ) = ⟨"Invalid", 0.0⟩ ∧
    calculateSemesterGPA ([⟨"Object Oriented Programming", 3, 90⟩] ++ [⟨"Bad Entry", 3, 120⟩]) =
      sumPoints [⟨"Object Oriented Programming", 3, 90⟩] /
        (sumCredits [⟨"Object Oriented Programming", 3, 90⟩] + 3) ∧
    calculateSemesterGPA ([⟨"Object Oriented Programming", 3, 90⟩] ++ [⟨"Bad Entry", 3, 120⟩]) ≤
      calculateSemesterGPA [⟨"Object Oriented Programming", 3, 90⟩] :=
  C10_out_of_range_marks_silently_zero ⟨"Bad Entry", 3, 120⟩ (Or.inr (by norm_num))
    (by norm_num) [⟨"Object Oriented Programming", 3, 90⟩] (by simp)
    (by
      intro x hx
      rw [List.mem_singleton] at hx
      subst hx
      norm_num)
